import Mathlib

set_option maxHeartbeats 1000000

namespace TaskManager

/-- A task as the orchestrator sees it: a JSON-like record whose `status`
field may be absent (`main.py` reads it with `t.get("status")`), with the
rest of the payload opaque. -/
structure Task where
  status : Option String
  payload : String
deriving DecidableEq, Repr

/-- Truthiness of a Python `Optional[str]`: `None` and the empty string are
falsy, every other string is truthy (used by `if task.status:` checks in
`main.py`). -/
def optTruthy : Option String → Bool
  | none => false
  | some s => !(s = "")

/-- Truthiness of the value returned by `cache_service.get`: `None` and the
empty list are falsy (`if cached_tasks:` in `get_tasks`). -/
def cachedTruthy : Option (List Task) → Bool
  | none => false
  | some l => !l.isEmpty

/-- leadMatch needle hay: the character list `needle` occurs at the head of
`hay` (models the Python substring test one alignment at a time). -/
def leadMatch : List Char → List Char → Bool
  | [], _ => true
  | _ :: _, [] => false
  | a :: as, b :: bs => a = b && leadMatch as bs

/-- occursIn needle hay: `needle` occurs contiguously somewhere in `hay`. -/
def occursIn (needle : List Char) : List Char → Bool
  | [] => leadMatch needle []
  | b :: tl => leadMatch needle (b :: tl) || occursIn needle tl

/-- strContains hay needle: models the Python `needle in hay` substring
test on strings. -/
def strContains (hay needle : String) : Bool :=
  occursIn needle.data hay.data

/-- lowerStr models Python `str.lower()` on the ASCII range (character-wise
lowercasing). -/
def lowerStr (s : String) : String :=
  String.mk (s.data.map Char.toLower)

/-- Modelled from the spec: the repository's `CacheService`
(`app/services/cache_service.py` is not in the sources; only its callers in
`main.py` and its tests in `test.py` are). Per spec section 4.1 it is a
key-value store with per-key expiry: an entry is `(key, value, expires_at)`.
Timestamps are abstract naturals. -/
structure CacheService where
  entries : List (String × List Task × Nat)
deriving DecidableEq, Repr

/-- Modelled from the spec: `get(key)` returns the stored value if present
and `now < expires_at`, otherwise absent; never raises for unknown or
expired keys (spec section 4.1). -/
def CacheService.get (c : CacheService) (k : String) (now : Nat) : Option (List Task) :=
  match c.entries.find? (fun e => e.1 = k) with
  | some e => if now < e.2.2 then some e.2.1 else none
  | none => none

/-- Modelled from the spec: `set(key, value, ttl)` stores `value` under
`key` with `expires_at = now + ttl`, overwriting any existing entry for
`key` (spec section 4.1). -/
def CacheService.set (c : CacheService) (k : String) (v : List Task) (ttl : Nat) (now : Nat) : CacheService :=
  ⟨(k, v, now + ttl) :: c.entries.filter (fun e => !(e.1 = k))⟩

/-- Modelled from the spec: `delete(key)` removes the entry if present, no
error if absent (spec section 4.1). -/
def CacheService.delete (c : CacheService) (k : String) : CacheService :=
  ⟨c.entries.filter (fun e => !(e.1 = k))⟩

/-- Outcome of one `n8n_service.send_message` call, as `main.py` observes
it: success carries the parsed JSON dict, of which the handlers only read
the optional `tasks` field (`response.get("tasks", [])`); failure is the
exception raised on network error / timeout / non-2xx. -/
inductive GatewayResult where
  | ok (tasksField : Option (List Task))
  | failure (msg : String)
deriving DecidableEq, Repr

/-- Result of the list endpoint `get_tasks`: HTTP status, the success body
(tasks and count) when there is one, the cache state after the handler, and
the message sent to the gateway (`none` when no remote call was made). -/
structure ListResult where
  httpStatus : Nat
  body : Option (List Task × Nat)
  cache : CacheService
  gatewayMessage : Option String
deriving DecidableEq, Repr

/-- The natural-language list query built in `get_tasks` (`main.py` lines
176-178 and 186-188): base message, replaced by the filtered form when
`status_filter` is truthy. -/
def listMessage (statusFilter : Option String) : String :=
  match statusFilter with
  | some f => if optTruthy (some f) then "Show me all tasks with status " ++ f else "Show me all tasks"
  | none => "Show me all tasks"

/-- GET /api/v1/tasks (`get_tasks`, `main.py` lines 157-204). With
`use_cache`, a truthy cached value is returned directly; otherwise the
gateway is called, the `tasks` field (defaulting to `[]`) is cached with a
60-second TTL and returned. Without `use_cache` the gateway is called and
nothing is stored. A gateway failure surfaces as HTTP 500 with the cache
unchanged. -/
def get_tasks (statusFilter : Option String) (useCache : Bool)
    (gw : GatewayResult) (cache : CacheService) (now : Nat) : ListResult :=
  if useCache then
    let cached := cache.get "all_tasks" now
    if cachedTruthy cached then
      { httpStatus := 200, body := some (cached.getD [], (cached.getD []).length),
        cache := cache, gatewayMessage := none }
    else
      match gw with
      | .failure _ =>
          { httpStatus := 500, body := none, cache := cache,
            gatewayMessage := some (listMessage statusFilter) }
      | .ok tf =>
          let tasks := tf.getD []
          { httpStatus := 200, body := some (tasks, tasks.length),
            cache := cache.set "all_tasks" tasks 60 now,
            gatewayMessage := some (listMessage statusFilter) }
  else
    match gw with
    | .failure _ =>
        { httpStatus := 500, body := none, cache := cache,
          gatewayMessage := some (listMessage statusFilter) }
    | .ok tf =>
        let tasks := tf.getD []
        { httpStatus := 200, body := some (tasks, tasks.length),
          cache := cache, gatewayMessage := some (listMessage statusFilter) }

/-- The POST /api/v1/tasks request body. `models.py` is not in the sources;
field shape follows its caller `create_task` in `main.py` and spec section
4.3 (name required, optional status / description / deadline). -/
structure TaskCreate where
  task_name : String
  status : Option String
  description : Option String
  deadline : Option String
deriving DecidableEq, Repr

/-- The PUT /api/v1/tasks/{name} request body (`TaskUpdate` in the missing
`models.py`); field shape follows its caller `update_task` in `main.py`. -/
structure TaskUpdate where
  status : Option String
  description : Option String
  deadline : Option String
deriving DecidableEq, Repr

/-- Result of a mutating endpoint (create / update / delete / free-form
message): HTTP status, error detail when there is one, the cache state
after the handler, and the message sent to the gateway (`none` when no
remote call was made). -/
structure MutResult where
  httpStatus : Nat
  detail : Option String
  cache : CacheService
  gatewayMessage : Option String
deriving DecidableEq, Repr

/-- The natural-language create instruction built in `create_task`
(`main.py` lines 219-228): base phrase plus optional status, description
and deadline clauses, in that order, each gated on Python truthiness. -/
def createMessage (t : TaskCreate) : String :=
  let m := "Create a new task called \x27" ++ t.task_name ++ "\x27"
  let m := if optTruthy t.status then m ++ " with status \x27" ++ t.status.getD "" ++ "\x27" else m
  let m := if optTruthy t.description then m ++ " and description \x27" ++ t.description.getD "" ++ "\x27" else m
  if optTruthy t.deadline then m ++ " with deadline \x27" ++ t.deadline.getD "" ++ "\x27" else m

/-- Modelled from the spec: the pydantic validation of `TaskCreate`
(`models.py` is not in the sources). Spec section 4.3: create "fails with a
ValidationError if name is empty, before any remote call"; `test.py`
(`test_create_task_validation_error`) pins the reported HTTP status to
422. -/
def taskCreateValid (t : TaskCreate) : Bool :=
  !(t.task_name = "")

/-- POST /api/v1/tasks (`create_task`, `main.py` lines 207-248), composed
with the spec-modelled request validation: an invalid body is rejected with
422 before any gateway call; otherwise the create instruction is sent, and
on success the `all_tasks` cache entry is deleted and 201 returned. A
gateway failure surfaces as HTTP 500 with the cache unchanged. -/
def create_task (t : TaskCreate) (gw : GatewayResult) (cache : CacheService) : MutResult :=
  if taskCreateValid t then
    match gw with
    | .failure e =>
        { httpStatus := 500, detail := some ("Failed to create task: " ++ e),
          cache := cache, gatewayMessage := some (createMessage t) }
    | .ok _ =>
        { httpStatus := 201, detail := none,
          cache := cache.delete "all_tasks", gatewayMessage := some (createMessage t) }
  else
    { httpStatus := 422, detail := some "validation error",
      cache := cache, gatewayMessage := none }

/-- The update clauses accumulated in `update_task` (`main.py` lines
264-273): one `"{field} to value"` clause per truthy field, in the order
status, description, deadline. -/
def updateClauses (u : TaskUpdate) : List String :=
  ((if optTruthy u.status then ["status to \x27" ++ u.status.getD "" ++ "\x27"] else []) ++
   (if optTruthy u.description then ["description to \x27" ++ u.description.getD "" ++ "\x27"] else [])) ++
  (if optTruthy u.deadline then ["deadline to \x27" ++ u.deadline.getD "" ++ "\x27"] else [])

/-- The natural-language update instruction built in `update_task`
(`main.py` lines 263-281), defined when at least one clause is present. -/
def updateMessage (name : String) (u : TaskUpdate) : String :=
  "Update the task \x27" ++ name ++ "\x27 - change " ++ String.intercalate ", " (updateClauses u)

/-- PUT /api/v1/tasks/{task_name} (`update_task`, `main.py` lines 251-303):
with no truthy update field it fails with HTTP 400 "No fields to update
provided" before any gateway call; otherwise the update instruction is
sent, and on success the `all_tasks` cache entry is deleted and 200
returned. A gateway failure surfaces as HTTP 500 with the cache
unchanged. -/
def update_task (name : String) (u : TaskUpdate) (gw : GatewayResult) (cache : CacheService) : MutResult :=
  if (updateClauses u).isEmpty then
    { httpStatus := 400, detail := some "No fields to update provided",
      cache := cache, gatewayMessage := none }
  else
    match gw with
    | .failure e =>
        { httpStatus := 500, detail := some ("Failed to update task: " ++ e),
          cache := cache, gatewayMessage := some (updateMessage name u) }
    | .ok _ =>
        { httpStatus := 200, detail := none,
          cache := cache.delete "all_tasks", gatewayMessage := some (updateMessage name u) }

/-- The natural-language delete instruction built in `delete_task`
(`main.py` line 314), confirmation phrase included. -/
def deleteMessage (name : String) : String :=
  "Delete the task \x27" ++ name ++ "\x27 - yes, I\x27m sure"

/-- DELETE /api/v1/tasks/{task_name} (`delete_task`, `main.py` lines
306-334): sends the confirmation-bearing delete instruction; on success
the `all_tasks` cache entry is deleted and 200 returned. A gateway failure
surfaces as HTTP 500 with the cache unchanged. -/
def delete_task (name : String) (gw : GatewayResult) (cache : CacheService) : MutResult :=
  match gw with
  | .failure e =>
      { httpStatus := 500, detail := some ("Failed to delete task: " ++ e),
        cache := cache, gatewayMessage := some (deleteMessage name) }
  | .ok _ =>
      { httpStatus := 200, detail := none,
        cache := cache.delete "all_tasks", gatewayMessage := some (deleteMessage name) }

/-- The mutation-indicating keywords checked by the free-form message
endpoint (`main.py` line 356). -/
def action_keywords : List String :=
  ["create", "update", "delete", "add", "remove", "change"]

/-- POST /api/v1/message (`send_message`, `main.py` lines 339-370):
forwards the text verbatim to the gateway; on success, if the lowercased
text contains any action keyword the `all_tasks` cache entry is deleted,
otherwise the cache is left unchanged. A gateway failure surfaces as HTTP
500 with the cache unchanged. -/
def send_message (msg : String) (gw : GatewayResult) (cache : CacheService) : MutResult :=
  match gw with
  | .failure e =>
      { httpStatus := 500, detail := some ("Failed to process message: " ++ e),
        cache := cache, gatewayMessage := some msg }
  | .ok _ =>
      let cache2 :=
        if action_keywords.any (fun k => strContains (lowerStr msg) k) then
          cache.delete "all_tasks"
        else cache
      { httpStatus := 200, detail := none, cache := cache2, gatewayMessage := some msg }

/-- The statistics computed by GET /api/v1/stats. `completion_rate` is kept
as an exact rational. -/
structure Stats where
  total_tasks : Nat
  todo : Nat
  in_progress : Nat
  done : Nat
  completion_rate : Rat
deriving DecidableEq, Repr

/-- Number of tasks whose `status` field equals `s` exactly (the generator
expressions in `get_task_stats`, `main.py` lines 387-389). -/
def countStatus (tasks : List Task) (s : String) : Nat :=
  (tasks.filter (fun t => t.status = some s)).length

/-- Python `round(x)` on an exact rational: round half to even. -/
def pyRound (q : Rat) : Int :=
  let f := q.floor
  let r := q - f
  if r < 1/2 then f
  else if 1/2 < r then f + 1
  else if f % 2 = 0 then f else f + 1

/-- Python `round(x, 2)` on an exact rational. -/
def round2 (q : Rat) : Rat :=
  (pyRound (q * 100) : Rat) / 100

/-- GET /api/v1/stats (`get_task_stats`, `main.py` lines 374-407): fetches
the task list (the `tasks` field of the gateway response, defaulting to
`[]`), counts per status, and computes the completion rate, left at 0.0
when there are no tasks. Returns `none` on gateway failure (HTTP 500). -/
def get_task_stats (gw : GatewayResult) : Option Stats :=
  match gw with
  | .failure _ => none
  | .ok tf =>
      let tasks := tf.getD []
      let total := tasks.length
      let doneCount := countStatus tasks "DONE"
      let rate : Rat :=
        if total > 0 then round2 ((doneCount : Rat) / (total : Rat) * 100) else 0
      some { total_tasks := total,
             todo := countStatus tasks "TODO",
             in_progress := countStatus tasks "IN PROGRESS",
             done := doneCount,
             completion_rate := rate }

/-- The cache never holds an entry under a key other than `"all_tasks"`. -/
def onlyKey (c : CacheService) : Bool :=
  c.entries.all (fun e => e.1 = "all_tasks")

theorem find?_filter_ne (l : List (String × List Task × Nat)) (k : String) :
    (l.filter (fun e => !(e.1 = k))).find? (fun e => e.1 = k) = none := by
  induction l with
  | nil => rfl
  | cons a tl ih =>
      by_cases h : a.1 = k <;> simp [List.filter, h, List.find?, ih]

theorem CacheService.get_delete (c : CacheService) (k : String) (now : Nat) :
    (c.delete k).get k now = none := by
  simp only [CacheService.get, CacheService.delete]
  rw [find?_filter_ne]

theorem CacheService.get_set_self (c : CacheService) (k : String) (v : List Task)
    (ttl now now2 : Nat) :
    (c.set k v ttl now).get k now2 = if now2 < now + ttl then some v else none := by
  simp [CacheService.get, CacheService.set, List.find?]

theorem onlyKey_delete (c : CacheService) (k : String) (h : onlyKey c = true) :
    onlyKey (c.delete k) = true := by
  simp only [onlyKey, CacheService.delete, List.all_eq_true, List.mem_filter] at h ⊢
  intro x hx
  exact h x hx.1

theorem onlyKey_set (c : CacheService) (v : List Task) (ttl now : Nat)
    (h : onlyKey c = true) :
    onlyKey (c.set "all_tasks" v ttl now) = true := by
  simp only [onlyKey, CacheService.set, List.all_cons, List.all_eq_true,
    List.mem_filter] at h ⊢
  simp only [decide_True, Bool.true_and, List.all_eq_true, List.mem_filter]
  exact fun x hx => h x hx.1

theorem get_tasks_hit (f : Option String) (gw : GatewayResult) (c : CacheService)
    (now : Nat) (ts : List Task) (h : c.get "all_tasks" now = some ts) (hne : ts ≠ []) :
    get_tasks f true gw c now =
      { httpStatus := 200, body := some (ts, ts.length), cache := c,
        gatewayMessage := none } := by
  have hne2 : ts.isEmpty = false := by
    cases ts with
    | nil => exact absurd rfl hne
    | cons a tl => rfl
  simp [get_tasks, h, cachedTruthy, hne2]

theorem get_tasks_miss_cached (f : Option String) (tf : Option (List Task))
    (c : CacheService) (now : Nat)
    (hmiss : cachedTruthy (c.get "all_tasks" now) = false) :
    get_tasks f true (.ok tf) c now =
      { httpStatus := 200, body := some (tf.getD [], (tf.getD []).length),
        cache := c.set "all_tasks" (tf.getD []) 60 now,
        gatewayMessage := some (listMessage f) } := by
  simp [get_tasks, hmiss]

theorem get_tasks_nocache (f : Option String) (tf : Option (List Task))
    (c : CacheService) (now : Nat) :
    get_tasks f false (.ok tf) c now =
      { httpStatus := 200, body := some (tf.getD [], (tf.getD []).length),
        cache := c, gatewayMessage := some (listMessage f) } := by
  simp [get_tasks]

theorem get_tasks_miss_calls_gateway (f : Option String) (gw : GatewayResult)
    (c : CacheService) (now : Nat)
    (hmiss : cachedTruthy (c.get "all_tasks" now) = false) :
    (get_tasks f true gw c now).gatewayMessage.isSome = true := by
  cases gw <;> simp [get_tasks, hmiss]

/-- C1: every create, update or delete request whose gateway call succeeds
(the validation passed, so the instruction was sent, and the gateway
returned ok) deletes the cache entry for key "all_tasks" before returning,
so a subsequent list request with use_cache = true finds no cached entry at
any time and must call the gateway instead of returning the pre-mutation
snapshot. -/
theorem mutations_invalidate_list_cache
    (t : TaskCreate) (uname dname : String) (u : TaskUpdate)
    (tfc tfu tfd : Option (List Task)) (c : CacheService) (now now2 : Nat)
    (f : Option String) (gw2 : GatewayResult)
    (hv : taskCreateValid t = true) (hu : (updateClauses u).isEmpty = false) :
    ((create_task t (.ok tfc) c).cache.get "all_tasks" now = none ∧
      (get_tasks f true gw2 (create_task t (.ok tfc) c).cache now2).gatewayMessage.isSome = true) ∧
    ((update_task uname u (.ok tfu) c).cache.get "all_tasks" now = none ∧
      (get_tasks f true gw2 (update_task uname u (.ok tfu) c).cache now2).gatewayMessage.isSome = true) ∧
    ((delete_task dname (.ok tfd) c).cache.get "all_tasks" now = none ∧
      (get_tasks f true gw2 (delete_task dname (.ok tfd) c).cache now2).gatewayMessage.isSome = true) := by
  have hc : (create_task t (.ok tfc) c).cache = c.delete "all_tasks" := by
    simp [create_task, hv]
  have hup : (update_task uname u (.ok tfu) c).cache = c.delete "all_tasks" := by
    simp [update_task, hu]
  have hd : (delete_task dname (.ok tfd) c).cache = c.delete "all_tasks" := by
    simp [delete_task]
  have hget : ∀ n : Nat, (c.delete "all_tasks").get "all_tasks" n = none :=
    fun n => CacheService.get_delete c "all_tasks" n
  have hmiss : cachedTruthy ((c.delete "all_tasks").get "all_tasks" now2) = false := by
    rw [hget now2]; rfl
  refine ⟨⟨?_, ?_⟩, ⟨?_, ?_⟩, ⟨?_, ?_⟩⟩ <;>
    simp only [hc, hup, hd] <;>
    first
    | exact hget now
    | exact get_tasks_miss_calls_gateway f gw2 (c.delete "all_tasks") now2 hmiss

theorem mutations_invalidate_list_cache_witness :
    (create_task ⟨"A", none, none, none⟩ (.ok none)
        ⟨[("all_tasks", [⟨some "TODO", "old"⟩], 100)]⟩).cache.get "all_tasks" 0 = none ∧
    (update_task "B" ⟨some "DONE", none, none⟩ (.ok none)
        ⟨[("all_tasks", [⟨some "TODO", "old"⟩], 100)]⟩).cache.get "all_tasks" 0 = none ∧
    (delete_task "C" (.ok none)
        ⟨[("all_tasks", [⟨some "TODO", "old"⟩], 100)]⟩).cache.get "all_tasks" 0 = none := by
  have h := mutations_invalidate_list_cache ⟨"A", none, none, none⟩ "B" "C"
    ⟨some "DONE", none, none⟩ none none none
    ⟨[("all_tasks", [⟨some "TODO", "old"⟩], 100)]⟩ 0 0 none (.ok none)
    (by decide) (by decide)
  exact ⟨h.1.1, h.2.1.1, h.2.2.1⟩

/-- C2 as stated is violated: with use_cache = true and a non-expired cache
entry for "all_tasks" whose value is the EMPTY task list, Python truthiness
(`if cached_tasks:`) treats the entry as a miss, so the handler calls the
gateway and returns the gateway data instead of the cached value. -/
theorem cached_empty_list_not_returned :
    (CacheService.get ⟨[("all_tasks", [], 100)]⟩ "all_tasks" 0 = some []) ∧
    (get_tasks none true (.ok (some [⟨some "TODO", "t1"⟩]))
        ⟨[("all_tasks", [], 100)]⟩ 0).gatewayMessage = some "Show me all tasks" ∧
    (get_tasks none true (.ok (some [⟨some "TODO", "t1"⟩]))
        ⟨[("all_tasks", [], 100)]⟩ 0).body = some ([⟨some "TODO", "t1"⟩], 1) := by
  decide

/-- C2 (amended): with use_cache = true, a non-expired cache entry holding
a NON-EMPTY task list is returned verbatim with no gateway call; a cached
empty list is treated as a miss and the gateway is called. -/
theorem list_cache_hit_requires_nonempty (f : Option String) (gw : GatewayResult)
    (c : CacheService) (now : Nat) (ts : List Task)
    (h : c.get "all_tasks" now = some ts) :
    (ts ≠ [] →
      get_tasks f true gw c now =
        { httpStatus := 200, body := some (ts, ts.length), cache := c,
          gatewayMessage := none }) ∧
    (ts = [] → (get_tasks f true gw c now).gatewayMessage.isSome = true) := by
  constructor
  · intro hne
    exact get_tasks_hit f gw c now ts h hne
  · intro he
    subst he
    have hmiss : cachedTruthy (c.get "all_tasks" now) = false := by rw [h]; rfl
    exact get_tasks_miss_calls_gateway f gw c now hmiss

theorem list_cache_hit_requires_nonempty_witness :
    get_tasks none true (.failure "down") ⟨[("all_tasks", [⟨some "TODO", "t1"⟩], 100)]⟩ 0 =
      { httpStatus := 200, body := some ([⟨some "TODO", "t1"⟩], 1),
        cache := ⟨[("all_tasks", [⟨some "TODO", "t1"⟩], 100)]⟩, gatewayMessage := none } :=
  (list_cache_hit_requires_nonempty none (.failure "down")
    ⟨[("all_tasks", [⟨some "TODO", "t1"⟩], 100)]⟩ 0 [⟨some "TODO", "t1"⟩]
    (by decide)).1 (by decide)

/-- C4 as stated is violated: a list request with use_cache = false is not
served from the cache (the gateway is called), yet the handler stores
nothing — the cache is unchanged, here still empty. -/
theorem nocache_list_does_not_store :
    (get_tasks none false (.ok (some [⟨some "TODO", "t1"⟩])) ⟨[]⟩ 0).gatewayMessage
        = some "Show me all tasks" ∧
    (get_tasks none false (.ok (some [⟨some "TODO", "t1"⟩])) ⟨[]⟩ 0).cache
        = (⟨[]⟩ : CacheService) := by
  decide

/-- C4 (amended): a list request not served from the cache calls the
gateway and returns count = number of returned tasks; when use_cache = true
it also stores the returned list under "all_tasks" with expiry now + 60
(readable exactly while now2 < now + 60); when use_cache = false the cache
is left unchanged. -/
theorem list_miss_stores_with_ttl (f : Option String) (tf : Option (List Task))
    (c : CacheService) (now now2 : Nat)
    (hmiss : cachedTruthy (c.get "all_tasks" now) = false) :
    (get_tasks f true (.ok tf) c now =
      { httpStatus := 200, body := some (tf.getD [], (tf.getD []).length),
        cache := c.set "all_tasks" (tf.getD []) 60 now,
        gatewayMessage := some (listMessage f) }) ∧
    ((get_tasks f true (.ok tf) c now).cache.get "all_tasks" now2 =
      if now2 < now + 60 then some (tf.getD []) else none) ∧
    (get_tasks f false (.ok tf) c now =
      { httpStatus := 200, body := some (tf.getD [], (tf.getD []).length),
        cache := c, gatewayMessage := some (listMessage f) }) := by
  refine ⟨get_tasks_miss_cached f tf c now hmiss, ?_, get_tasks_nocache f tf c now⟩
  rw [get_tasks_miss_cached f tf c now hmiss]
  exact CacheService.get_set_self c "all_tasks" (tf.getD []) 60 now now2

theorem list_miss_stores_with_ttl_witness :
    (get_tasks (some "TODO") true (.ok (some [⟨some "TODO", "t1"⟩])) ⟨[]⟩ 5 =
      { httpStatus := 200, body := some ([⟨some "TODO", "t1"⟩], 1),
        cache := CacheService.set ⟨[]⟩ "all_tasks" [⟨some "TODO", "t1"⟩] 60 5,
        gatewayMessage := some "Show me all tasks with status TODO" }) ∧
    ((get_tasks (some "TODO") true (.ok (some [⟨some "TODO", "t1"⟩])) ⟨[]⟩ 5).cache.get
        "all_tasks" 64 = if 64 < 5 + 60 then some [⟨some "TODO", "t1"⟩] else none) :=
  ⟨(list_miss_stores_with_ttl (some "TODO") (some [⟨some "TODO", "t1"⟩]) ⟨[]⟩ 5 64
      (by decide)).1,
   (list_miss_stores_with_ttl (some "TODO") (some [⟨some "TODO", "t1"⟩]) ⟨[]⟩ 5 64
      (by decide)).2.1⟩

/-- C5: a successfully handled free-form message whose lowercased text
contains one of the keywords create, update, delete, add, remove, change
deletes the cache entry "all_tasks"; a successfully handled message
containing none of them leaves the cache unchanged. -/
theorem message_keywords_invalidate (msg : String) (tf : Option (List Task))
    (c : CacheService) :
    ((∃ k ∈ action_keywords, strContains (lowerStr msg) k = true) →
        (send_message msg (.ok tf) c).cache = c.delete "all_tasks") ∧
    ((∀ k ∈ action_keywords, strContains (lowerStr msg) k = false) →
        (send_message msg (.ok tf) c).cache = c) := by
  constructor
  · intro hk
    have ha : action_keywords.any (fun k => strContains (lowerStr msg) k) = true := by
      rw [List.any_eq_true]
      obtain ⟨k, hk1, hk2⟩ := hk
      exact ⟨k, hk1, hk2⟩
    simp [send_message, ha]
  · intro hk
    have ha : action_keywords.any (fun k => strContains (lowerStr msg) k) = false := by
      rw [Bool.eq_false_iff]
      intro hcon
      rw [List.any_eq_true] at hcon
      obtain ⟨k, hk1, hk2⟩ := hcon
      rw [hk k hk1] at hk2
      exact Bool.false_ne_true hk2
    simp [send_message, ha]

theorem message_keywords_invalidate_witness :
    (send_message "Please DELETE my task" (.ok none)
        ⟨[("all_tasks", [⟨some "TODO", "old"⟩], 100)]⟩).cache
      = CacheService.delete ⟨[("all_tasks", [⟨some "TODO", "old"⟩], 100)]⟩ "all_tasks" ∧
    (send_message "show my tasks" (.ok none)
        ⟨[("all_tasks", [⟨some "TODO", "old"⟩], 100)]⟩).cache
      = ⟨[("all_tasks", [⟨some "TODO", "old"⟩], 100)]⟩ :=
  ⟨(message_keywords_invalidate "Please DELETE my task" none
      ⟨[("all_tasks", [⟨some "TODO", "old"⟩], 100)]⟩).1 (by decide),
   (message_keywords_invalidate "show my tasks" none
      ⟨[("all_tasks", [⟨some "TODO", "old"⟩], 100)]⟩).2 (by decide)⟩

/-- C6: an update request with status, description and deadline all absent
fails with HTTP 400 "No fields to update provided", makes no gateway call
and leaves the cache unchanged. -/
theorem update_no_fields_rejected (name : String) (u : TaskUpdate)
    (gw : GatewayResult) (c : CacheService)
    (hs : u.status = none) (hd : u.description = none) (hdl : u.deadline = none) :
    update_task name u gw c =
      { httpStatus := 400, detail := some "No fields to update provided",
        cache := c, gatewayMessage := none } := by
  obtain ⟨s, d, dl⟩ := u
  simp only at hs hd hdl
  subst hs
  subst hd
  subst hdl
  simp [update_task, updateClauses, optTruthy]

theorem update_no_fields_rejected_witness :
    update_task "T" ⟨none, none, none⟩ (.ok none) ⟨[("all_tasks", [], 100)]⟩ =
      { httpStatus := 400, detail := some "No fields to update provided",
        cache := ⟨[("all_tasks", [], 100)]⟩, gatewayMessage := none } :=
  update_no_fields_rejected "T" ⟨none, none, none⟩ (.ok none)
    ⟨[("all_tasks", [], 100)]⟩ rfl rfl rfl

/-- C7: a create request with an empty task_name fails validation with
HTTP 422 before any gateway call and before any cache mutation. -/
theorem create_empty_name_rejected (t : TaskCreate) (gw : GatewayResult)
    (c : CacheService) (h : t.task_name = "") :
    create_task t gw c =
      { httpStatus := 422, detail := some "validation error",
        cache := c, gatewayMessage := none } := by
  have hv : taskCreateValid t = false := by
    simp [taskCreateValid, h]
  simp [create_task, hv]

theorem create_empty_name_rejected_witness :
    create_task ⟨"", some "TODO", none, none⟩ (.ok none) ⟨[("all_tasks", [], 100)]⟩ =
      { httpStatus := 422, detail := some "validation error",
        cache := ⟨[("all_tasks", [], 100)]⟩, gatewayMessage := none } :=
  create_empty_name_rejected ⟨"", some "TODO", none, none⟩ (.ok none)
    ⟨[("all_tasks", [], 100)]⟩ rfl

/-- C10: a successful gateway response with no "tasks" field is treated as
an empty task list: the list endpoint returns tasks = [] with count 0 as a
success — with use_cache = true it stores that empty list with a 60-second
TTL, with use_cache = false the cache is unchanged — and the stats endpoint
returns total_tasks = 0 with completion_rate = 0.0. -/
theorem missing_tasks_field_defaults_empty (f : Option String) (c : CacheService)
    (now now2 : Nat)
    (hmiss : cachedTruthy (c.get "all_tasks" now) = false) :
    (get_tasks f true (.ok none) c now =
      { httpStatus := 200, body := some ([], 0),
        cache := c.set "all_tasks" [] 60 now,
        gatewayMessage := some (listMessage f) }) ∧
    ((get_tasks f true (.ok none) c now).cache.get "all_tasks" now2 =
      if now2 < now + 60 then some [] else none) ∧
    (get_tasks f false (.ok none) c now =
      { httpStatus := 200, body := some ([], 0), cache := c,
        gatewayMessage := some (listMessage f) }) ∧
    (get_task_stats (.ok none) =
      some { total_tasks := 0, todo := 0, in_progress := 0, done := 0,
             completion_rate := 0 }) := by
  refine ⟨get_tasks_miss_cached f none c now hmiss, ?_,
    get_tasks_nocache f none c now, rfl⟩
  rw [get_tasks_miss_cached f none c now hmiss]
  exact CacheService.get_set_self c "all_tasks" [] 60 now now2

theorem missing_tasks_field_defaults_empty_witness :
    get_tasks none true (.ok none) ⟨[]⟩ 0 =
      { httpStatus := 200, body := some ([], 0),
        cache := CacheService.set ⟨[]⟩ "all_tasks" [] 60 0,
        gatewayMessage := some "Show me all tasks" } :=
  (missing_tasks_field_defaults_empty none ⟨[]⟩ 0 0 (by decide)).1

/-- C3: every operation touches at most the single cache key "all_tasks" —
each handler preserves the invariant that the cache holds entries only
under that key — and all list queries share that one entry regardless of
status_filter: a task list stored by a query with filter f is returned
verbatim to a later query with any filter f2 (use_cache = true) while
unexpired, so a filtered and an unfiltered query collide on one entry. -/
theorem single_cache_key (f f2 : Option String) (useC : Bool)
    (gw gw2 : GatewayResult) (c : CacheService) (now now2 : Nat)
    (t : TaskCreate) (uname dname msg : String) (u : TaskUpdate) (ts : List Task)
    (hk : onlyKey c = true)
    (hmiss : cachedTruthy (c.get "all_tasks" now) = false)
    (hne : ts ≠ []) (hlt : now2 < now + 60) :
    (onlyKey (get_tasks f useC gw c now).cache = true ∧
     onlyKey (create_task t gw c).cache = true ∧
     onlyKey (update_task uname u gw c).cache = true ∧
     onlyKey (delete_task dname gw c).cache = true ∧
     onlyKey (send_message msg gw c).cache = true) ∧
    (get_tasks f2 true gw2 (get_tasks f true (.ok (some ts)) c now).cache now2 =
      { httpStatus := 200, body := some (ts, ts.length),
        cache := (get_tasks f true (.ok (some ts)) c now).cache,
        gatewayMessage := none }) := by
  have hset : ∀ v ttl n, onlyKey (c.set "all_tasks" v ttl n) = true :=
    fun v ttl n => onlyKey_set c v ttl n hk
  have hdel : onlyKey (c.delete "all_tasks") = true :=
    onlyKey_delete c "all_tasks" hk
  constructor
  · refine ⟨?_, ?_, ?_, ?_, ?_⟩
    · cases useC
      · cases gw <;> simp [get_tasks, hk, hset]
      · by_cases hct : cachedTruthy (c.get "all_tasks" now) = true
        · simp [get_tasks, hct, hk]
        · cases gw <;>
            simp [get_tasks, Bool.eq_false_iff.mpr hct, hk, hset]
    · by_cases hv : taskCreateValid t = true
      · cases gw <;> simp [create_task, hv, hdel, hk]
      · simp [create_task, Bool.eq_false_iff.mpr hv, hk]
    · by_cases hclauses : (updateClauses u).isEmpty = true
      · simp [update_task, hclauses, hk]
      · cases gw <;> simp [update_task, Bool.eq_false_iff.mpr hclauses, hdel, hk]
    · cases gw <;> simp [delete_task, hdel, hk]
    · cases hb : action_keywords.any (fun k => strContains (lowerStr msg) k) <;>
        cases gw <;> simp [send_message, hb, hdel, hk]
  · have h1 := get_tasks_miss_cached f (some ts) c now hmiss
    have hcache : (get_tasks f true (.ok (some ts)) c now).cache =
        c.set "all_tasks" ts 60 now := by
      rw [h1]
      rfl
    have hget2 : (c.set "all_tasks" ts 60 now).get "all_tasks" now2 = some ts := by
      rw [CacheService.get_set_self]
      simp [hlt]
    have h2 := get_tasks_hit f2 gw2 (c.set "all_tasks" ts 60 now) now2 ts hget2 hne
    rw [hcache]
    exact h2

theorem single_cache_key_witness :
    get_tasks (some "DONE") true (.failure "down")
      (get_tasks none true (.ok (some [⟨some "TODO", "t1"⟩])) ⟨[]⟩ 0).cache 30 =
      { httpStatus := 200, body := some ([⟨some "TODO", "t1"⟩], 1),
        cache := (get_tasks none true (.ok (some [⟨some "TODO", "t1"⟩])) ⟨[]⟩ 0).cache,
        gatewayMessage := none } :=
  (single_cache_key none (some "DONE") true (.ok none) (.failure "down") ⟨[]⟩ 0 30
    ⟨"A", none, none, none⟩ "B" "C" "m" ⟨none, none, none⟩ [⟨some "TODO", "t1"⟩]
    (by decide) (by decide) (by decide) (by decide)).2

/-- C8: for every gateway task list, stats returns total_tasks = length,
by_status counts of tasks whose status equals exactly "TODO", "IN PROGRESS"
and "DONE", and completion_rate = round(done / total * 100, 2) when
total > 0 and 0.0 otherwise; the empty list yields total_tasks = 0 and
completion_rate = 0.0 with no division, and one task of each status yields
total_tasks = 3 and completion_rate = 33.33. -/
theorem stats_formula (tasks : List Task) (p1 p2 p3 : String) :
    (get_task_stats (.ok (some tasks)) =
      some { total_tasks := tasks.length,
             todo := countStatus tasks "TODO",
             in_progress := countStatus tasks "IN PROGRESS",
             done := countStatus tasks "DONE",
             completion_rate :=
               if tasks.length > 0 then
                 round2 ((countStatus tasks "DONE" : Rat) / (tasks.length : Rat) * 100)
               else 0 }) ∧
    (get_task_stats (.ok (some [])) =
      some { total_tasks := 0, todo := 0, in_progress := 0, done := 0,
             completion_rate := 0 }) ∧
    (get_task_stats (.ok (some
        [⟨some "TODO", p1⟩, ⟨some "IN PROGRESS", p2⟩, ⟨some "DONE", p3⟩])) =
      some { total_tasks := 3, todo := 1, in_progress := 1, done := 1,
             completion_rate := 3333 / 100 }) := by
  refine ⟨rfl, rfl, ?_⟩
  simp [get_task_stats, countStatus]
  simp only [round2, pyRound, Rat.floor_def']
  norm_num

/-- C9: the natural-language instructions reproduce the fixed templates
exactly — the list query with its optional status suffix, create with its
optional clauses in the fixed order status, description, deadline, update
as the base phrase followed by the comma-joined field clauses in that same
order, and delete with its confirmation phrase. -/
theorem message_templates (name f s d dl cl1 cl2 : String)
    (hf : f ≠ "") (hs : s ≠ "") (hd : d ≠ "") (hdl : dl ≠ "") :
    listMessage none = "Show me all tasks" ∧
    listMessage (some f) = "Show me all tasks" ++ " with status " ++ f ∧
    createMessage ⟨name, none, none, none⟩ =
      "Create a new task called \x27" ++ name ++ "\x27" ∧
    createMessage ⟨name, some s, some d, some dl⟩ =
      "Create a new task called \x27" ++ name ++ "\x27" ++
        " with status \x27" ++ s ++ "\x27" ++
        " and description \x27" ++ d ++ "\x27" ++
        " with deadline \x27" ++ dl ++ "\x27" ∧
    updateMessage name ⟨some s, some d, some dl⟩ =
      "Update the task \x27" ++ name ++ "\x27 - change " ++
        String.intercalate ", "
          ["status to \x27" ++ s ++ "\x27", "description to \x27" ++ d ++ "\x27",
           "deadline to \x27" ++ dl ++ "\x27"] ∧
    updateMessage name ⟨some s, none, some dl⟩ =
      "Update the task \x27" ++ name ++ "\x27 - change " ++
        String.intercalate ", "
          ["status to \x27" ++ s ++ "\x27", "deadline to \x27" ++ dl ++ "\x27"] ∧
    String.intercalate ", " [cl1, cl2] = cl1 ++ ", " ++ cl2 ∧
    deleteMessage name =
      "Delete the task \x27" ++ name ++ "\x27" ++ " - yes, I\x27m sure" := by
  refine ⟨rfl, ?_, ?_, ?_, ?_, ?_, ?_, ?_⟩ <;>
    simp [listMessage, createMessage, updateMessage, deleteMessage, updateClauses,
      optTruthy, hf, hs, hd, hdl, String.intercalate, String.intercalate.go,
      String.append_assoc]

theorem message_templates_witness :
    createMessage ⟨"Buy milk", some "TODO", some "morning", some "2025-12-31"⟩ =
      "Create a new task called \x27" ++ "Buy milk" ++ "\x27" ++
        " with status \x27" ++ "TODO" ++ "\x27" ++
        " and description \x27" ++ "morning" ++ "\x27" ++
        " with deadline \x27" ++ "2025-12-31" ++ "\x27" :=
  (message_templates "Buy milk" "TODO" "TODO" "morning" "2025-12-31" "a" "b"
    (by decide) (by decide) (by decide) (by decide)).2.2.2.1

end TaskManager
